import Mathlib

/-
  Verification development for the ha-outback-mate3 repository.

  The repository contains two implementations of the MATE3 UDP telemetry
  decoder:

  * the "root variant": src/__init__.py (class OutbackMate3 with
    _process_data / _process_device / _process_inverter /
    _process_charge_controller) together with src/sensor.py;

  * the "custom-components variant":
    src/custom_components/outback_mate3/__init__.py (class OutbackMate3 with
    _process_data / _process_inverter / _process_charge_controller) together
    with src/custom_components/outback_mate3/sensor.py.

  Both are embedded below.  Python dictionaries are modelled as association
  lists (a write is a cons; lookup takes the first, i.e. newest, binding),
  Python floats as rationals, Python strings as Lean strings.  int(s) and
  float(s) are modelled by executable decimal parsers pyIntStr / pyFloatStr
  (the exponent / underscore / whitespace forms that Python also accepts are
  never produced by the MATE3 wire format and are not modelled).  A Python
  statement that may raise (int(), float(), an out-of-range index) is
  modelled by an Option match; the Bool component of a decoder's result
  records whether it ran to completion (false = an exception escaped), and
  the dictionary component records exactly the writes performed before the
  exception, since the Python code mutates the stored dict in place.
-/

/-- A value stored in one of the Python dictionaries of the integration:
a float, an int, or a string. -/
inductive PyVal where
  | pq : ℚ → PyVal
  | pz : ℤ → PyVal
  | ps : String → PyVal
deriving DecidableEq

/-- A Python dict keyed by strings, as an association list; the most recent
write is the head, and `dlookup` returns it. -/
def PyDict : Type := List (String × PyVal)

instance : DecidableEq PyDict := by
  unfold PyDict
  infer_instance

/-- Dictionary read: first (most recent) binding wins. -/
def dlookup (k : String) (d : PyDict) : Option PyVal :=
  List.lookup k d

/-- Numeric value of a list of decimal digit characters. -/
def digitsVal (l : List Char) : ℕ :=
  l.foldl (fun a c => 10 * a + (c.toNat - 48)) 0

/-- All characters are decimal digits. -/
def allDigits (l : List Char) : Bool := l.all Char.isDigit

/-- Model of Python `int(s)`: an optional sign followed by one or more
decimal digits; anything else raises ValueError, i.e. `none`. -/
def pyIntStr (s : String) : Option ℤ :=
  match s.toList with
  | [] => none
  | '-' :: ds =>
      if !ds.isEmpty && allDigits ds then some (-(digitsVal ds : ℤ)) else none
  | '+' :: ds =>
      if !ds.isEmpty && allDigits ds then some (digitsVal ds : ℤ) else none
  | ds =>
      if allDigits ds then some (digitsVal ds : ℤ) else none

/-- Value of a fractional digit string: "25" ↦ 0.25. -/
def fracVal (l : List Char) : ℚ :=
  l.foldr (fun c a => ((c.toNat - 48 : ℕ) + a) / 10) 0

/-- Unsigned part of Python `float(s)`: digits, or digits '.' digits with
either side (but not both) possibly empty. -/
def pyFloatMag (l : List Char) : Option ℚ :=
  match l.splitOn '.' with
  | [ip] => if !ip.isEmpty && allDigits ip then some (digitsVal ip : ℚ) else none
  | [ip, fp] =>
      if ip.isEmpty && fp.isEmpty then none
      else if allDigits ip && allDigits fp then
        some ((digitsVal ip : ℚ) + fracVal fp)
      else none
  | _ => none

/-- Model of Python `float(s)` on the decimal forms the MATE3 wire format
uses. -/
def pyFloatStr (s : String) : Option ℚ :=
  match s.toList with
  | '-' :: rest => (pyFloatMag rest).map (fun q => -q)
  | '+' :: rest => pyFloatMag rest
  | rest => pyFloatMag rest

/-- `float(values[i])`: none on a missing index (IndexError) or a
non-numeric field (ValueError). -/
def fAt (values : List String) (i : ℕ) : Option ℚ :=
  (values.get? i).bind pyFloatStr

/-- `int(values[i])`. -/
def iAt (values : List String) (i : ℕ) : Option ℤ :=
  (values.get? i).bind pyIntStr

/-- `values[i]` read as a raw string (total helper; callers establish the
index is in range where the Python code would). -/
def vAt (values : List String) (i : ℕ) : String :=
  (values.get? i).getD ""

/-- Python `int(q)` on a float: truncation toward zero. -/
def pytrunc (q : ℚ) : ℤ := q.num.tdiv (q.den : ℤ)

/-- Bit `k` of the integer `m` under Python's two's-complement `&`
semantics: bit `k` of `m mod 2^(k+1)`. -/
def pybit (m : ℤ) (k : ℕ) : Bool :=
  (m.emod (2 ^ (k + 1))).toNat.testBit k

/-- Inverter mode table of src/__init__.py lines 161-179 (default
"unknown"). -/
def inverterModeLabel (m : ℤ) : String :=
  if m = 0 then "off" else if m = 1 then "search" else if m = 2 then "inverting"
  else if m = 3 then "charging" else if m = 4 then "silent"
  else if m = 5 then "floating" else if m = 6 then "equalizing"
  else if m = 7 then "charger-off" else if m = 8 then "charger-off"
  else if m = 9 then "selling" else if m = 10 then "pass-through"
  else if m = 11 then "slave-on" else if m = 12 then "slave-off"
  else if m = 14 then "offsetting" else if m = 90 then "inverter-error"
  else if m = 91 then "ags-error" else if m = 92 then "comm-error"
  else "unknown"

/-- AC mode table of src/__init__.py lines 182-186 (default "unknown"). -/
def acModeLabel (m : ℤ) : String :=
  if m = 0 then "no-ac" else if m = 1 then "ac-drop"
  else if m = 2 then "ac-use" else "unknown"

/-- Charger mode table of src/__init__.py lines 205-211 (default
"unknown"). -/
def chargerModeLabel (m : ℤ) : String :=
  if m = 0 then "silent" else if m = 1 then "float" else if m = 2 then "bulk"
  else if m = 3 then "absorb" else if m = 4 then "equalize" else "unknown"

/-- src/__init__.py `OutbackMate3._process_inverter` (lines 127-186), acting
on the per-slot dict `inv0`.  Statements appear in source order; every
`int()` / `float()` that can raise is an Option match, and the writes made
before a raise are kept (the Python code mutates `self.inverters[no]` in
place).  Line 136 of the source is `ac_factor = 2 if is_240v else 2`, which
is reproduced verbatim here. -/
def processInverterA (values : List String) (inv0 : PyDict) : PyDict × Bool :=
  match iAt values 20 with
  | none => (inv0, false)
  | some misc =>
  let is_240v : Bool := pybit misc 7
  let ac_factor : ℚ := if is_240v then 2 else 2
  let is_grid : Bool := pybit misc 6
  let inv : PyDict :=
    ("ac_source", PyVal.ps (if is_grid then "grid" else "generator")) :: inv0
  match fAt values 2 with
  | none => (inv, false)
  | some q2 =>
  let inv : PyDict := ("l1_inverter_current", PyVal.pq q2) :: inv
  match fAt values 3 with
  | none => (inv, false)
  | some q3 =>
  let inv : PyDict := ("l1_charger_current", PyVal.pq q3) :: inv
  match fAt values 4 with
  | none => (inv, false)
  | some q4 =>
  let inv : PyDict := ("l1_buy_current", PyVal.pq q4) :: inv
  match fAt values 5 with
  | none => (inv, false)
  | some q5 =>
  let inv : PyDict := ("l1_sell_current", PyVal.pq q5) :: inv
  match fAt values 6 with
  | none => (inv, false)
  | some q6 =>
  let inv : PyDict := ("l1_ac_input_voltage", PyVal.pq (q6 * ac_factor)) :: inv
  match fAt values 8 with
  | none => (inv, false)
  | some q8 =>
  let inv : PyDict := ("l1_ac_output_voltage", PyVal.pq (q8 * ac_factor)) :: inv
  match fAt values 9 with
  | none => (inv, false)
  | some q9 =>
  let inv : PyDict := ("l2_inverter_current", PyVal.pq q9) :: inv
  match fAt values 10 with
  | none => (inv, false)
  | some q10 =>
  let inv : PyDict := ("l2_charger_current", PyVal.pq q10) :: inv
  match fAt values 11 with
  | none => (inv, false)
  | some q11 =>
  let inv : PyDict := ("l2_buy_current", PyVal.pq q11) :: inv
  match fAt values 12 with
  | none => (inv, false)
  | some q12 =>
  let inv : PyDict := ("l2_sell_current", PyVal.pq q12) :: inv
  match fAt values 13 with
  | none => (inv, false)
  | some q13 =>
  let inv : PyDict := ("l2_ac_input_voltage", PyVal.pq (q13 * ac_factor)) :: inv
  match fAt values 15 with
  | none => (inv, false)
  | some q15 =>
  let inv : PyDict := ("l2_ac_output_voltage", PyVal.pq (q15 * ac_factor)) :: inv
  match fAt values 2, fAt values 9 with
  | some a, some b =>
    let inv : PyDict :=
      ("output_power", PyVal.pz (pytrunc ((a + b) * 110))) :: inv
    match iAt values 16 with
    | none => (inv, false)
    | some im =>
    let inv : PyDict := ("inverter_mode", PyVal.ps (inverterModeLabel im)) :: inv
    match iAt values 18 with
    | none => (inv, false)
    | some am =>
    (("ac_mode", PyVal.ps (acModeLabel am)) :: inv, true)
  | _, _ => (inv, false)

/-- src/__init__.py `OutbackMate3._process_charge_controller` (lines
188-213), acting on the per-slot dict `cc0`; same conventions as
`processInverterA`. -/
def processChargeControllerA (values : List String) (cc0 : PyDict) :
    PyDict × Bool :=
  match iAt values 4 with
  | none => (cc0, false)
  | some pv_current =>
  match iAt values 5 with
  | none => (cc0, false)
  | some pv_voltage =>
  let cc : PyDict := ("pv_current", PyVal.pz pv_current) :: cc0
  let cc : PyDict := ("pv_voltage", PyVal.pz pv_voltage) :: cc
  let cc : PyDict := ("pv_power", PyVal.pz (pv_voltage * pv_current)) :: cc
  match fAt values 3 with
  | none => (cc, false)
  | some f3 =>
  match fAt values 7 with
  | none => (cc, false)
  | some f7 =>
  let cc : PyDict := ("output_current", PyVal.pq (f3 + f7 / 10)) :: cc
  match iAt values 10 with
  | none => (cc, false)
  | some cm =>
  let cc : PyDict := ("charger_mode", PyVal.ps (chargerModeLabel cm)) :: cc
  match fAt values 11 with
  | none => (cc, false)
  | some f11 =>
  (("battery_voltage", PyVal.pq (f11 / 10)) :: cc, true)

/-- Python `device.split(',')`: split a character list at every comma,
keeping empty segments. -/
def splitComma : List Char → List (List Char)
  | [] => [[]]
  | ',' :: rest => [] :: splitComma rest
  | c :: rest =>
    match splitComma rest with
    | s :: ss => (c :: s) :: ss
    | [] => [[c]]

/-- `device.split(',')` on a string. -/
def splitCommaS (s : String) : List String :=
  (splitComma s.toList).map (fun l => String.mk l)

/-- `re.split(']<|><|>', metrics)`: at each position the alternatives
`]<`, `><`, `>` are tried in this order (they only overlap on `>`,
resolved by whether `<` follows). -/
def pySplitDelims : List Char → List (List Char)
  | [] => [[]]
  | ']' :: '<' :: rest => [] :: pySplitDelims rest
  | '>' :: '<' :: rest => [] :: pySplitDelims rest
  | '>' :: rest => [] :: pySplitDelims rest
  | c :: rest =>
    match pySplitDelims rest with
    | s :: ss => (c :: s) :: ss
    | [] => [[c]]

/-- State of the root-variant `OutbackMate3` object: the per-datagram
slot counters and the two per-slot reading maps (src/__init__.py lines
68-70). -/
structure StateA where
  device_counts : List (ℤ × ℕ)
  inverters : List (ℕ × PyDict)
  charge_controllers : List (ℕ × PyDict)
deriving DecidableEq

/-- The freshly constructed root-variant state. -/
def StateA.init : StateA := ⟨[], [], []⟩

/-- `self.device_counts.get(t, 0)`. -/
def countsGet (counts : List (ℤ × ℕ)) (t : ℤ) : ℕ :=
  (counts.lookup t).getD 0

/-- src/__init__.py `OutbackMate3._process_device` (lines 113-125).
Result: the state after the call (writes performed before an exception
are kept), whether it completed without raising, and the `(device_type,
no)` slot assignment it made (none when `int(values[1])` raised). -/
def processDeviceA (st : StateA) (device : String) :
    StateA × Bool × Option (ℤ × ℕ) :=
  let values := splitCommaS device
  match iAt values 1 with
  | none => (st, false, none)
  | some t =>
    let no := countsGet st.device_counts t + 1
    let st := { st with device_counts := (t, no) :: st.device_counts }
    if t = 6 then
      let inv0 := (st.inverters.lookup no).getD []
      let r := processInverterA values inv0
      ({ st with inverters := (no, r.1) :: st.inverters }, r.2, some (t, no))
    else if t = 3 then
      let cc0 := (st.charge_controllers.lookup no).getD []
      let r := processChargeControllerA values cc0
      ({ st with charge_controllers := (no, r.1) :: st.charge_controllers },
        r.2, some (t, no))
    else
      (st, true, some (t, no))

/-- The `for device in devices:` loop of src/__init__.py `_process_data`
(lines 108-109): the loop body runs inside the method-level `try`, so the
first exception aborts the remaining records.  The second component is the
trace of `(device_type, no)` slot assignments made. -/
def processRecordsA : List String → StateA → StateA × List (ℤ × ℕ)
  | [], st => (st, [])
  | d :: rest, st =>
    match processDeviceA st d with
    | (st', true, a) =>
      let r := processRecordsA rest st'
      (r.1, a.toList ++ r.2)
    | (st', false, a) => (st', a.toList)

/-- src/__init__.py `OutbackMate3._process_data` (lines 100-111) from the
already-split record list: `self.device_counts = {}` then the record
loop. -/
def processDataA (st : StateA) (records : List String) :
    StateA × List (ℤ × ℕ) :=
  processRecordsA records { st with device_counts := [] }

/-- src/__init__.py `OutbackMate3._process_data` from the raw UDP payload:
`metrics = str(data)` wraps the bytes object in `b'...'` (the payloads
considered are ASCII without quote characters, where Python's bytes repr
adds exactly this prefix and suffix), then
`re.split(']<|><|>', metrics)` and the filter keeping records that start
with '0'. -/
def processDataAraw (st : StateA) (payload : String) :
    StateA × List (ℤ × ℕ) :=
  let metrics := "b'" ++ payload ++ "'"
  match pySplitDelims metrics.toList with
  | [] => (st, [])
  | _header :: devices =>
    let devs := devices.filter (fun d =>
      match d with
      | '0' :: _ => true
      | _ => false)
    processDataA st (devs.map (fun l => String.mk l))

/-- State of the custom-components `OutbackMate3` object: the discovery
set and the per-device-key data arrays
(src/custom_components/outback_mate3/__init__.py lines 105-110). -/
structure StateB where
  discovered_devices : List String
  device_data : List (String × List PyVal)
deriving DecidableEq

/-- The freshly constructed custom-components state. -/
def StateB.init : StateB := ⟨[], []⟩

/-- One character of the uppercase hex class `[0-9A-F]` used by the header
regex of src/custom_components/outback_mate3/__init__.py line 177. -/
def isUpHexDigit (c : Char) : Bool :=
  c.isDigit || ('A' ≤ c && c ≤ 'F')

/-- `re.match(r'^\[[0-9A-F]{6}-[0-9A-F]{6}\]', message)` as a Bool. -/
def headerMatch : List Char → Bool
  | '[' :: a :: b :: c :: d :: e :: f :: '-' :: g :: h :: i :: j :: k :: l
      :: ']' :: _ =>
    [a, b, c, d, e, f, g, h, i, j, k, l].all isUpHexDigit
  | _ => false

/-- The MAC address extracted on a header match: characters 1-6 and 8-13
of the message (the regex group with the hyphen removed).  The code finds
it by re-matching `\[([0-9A-F]{6}-[0-9A-F]{6})` against the first
`re.split` segment; when `headerMatch` holds, characters 0-14 of the
message contain no `<` or `>`, so that segment is a prefix of the message
of length at least 14 and the group is exactly these characters. -/
def extractMac (m : List Char) : String :=
  String.mk ((m.drop 1).take 6 ++ (m.drop 8).take 6)

/-- src/custom_components/outback_mate3/__init__.py
`OutbackMate3._process_inverter` (lines 338-367).  `device_data` is a
fresh copy (`list(...)`) mutated locally and stored only at the end, so a
float() failure inside the `try` leaves the state unchanged. -/
def processInverterB (st : StateB) (device_no : ℤ) (values : List String)
    (mac : String) : StateB :=
  let key := mac ++ "_inverter_" ++ toString device_no
  let dd := (st.device_data.lookup key).getD (List.replicate 15 (PyVal.pz 0))
  if values.length ≥ 15 then
    if vAt values 0 = "1" then
      let dd := dd.set 11 (PyVal.ps (vAt values 11))
      let dd := dd.set 12 (PyVal.ps (vAt values 12))
      { st with device_data := (key, dd) :: st.device_data }
    else if vAt values 0 = "2" then
      match fAt values 3, fAt values 4, fAt values 5, fAt values 6,
            fAt values 7, fAt values 8, fAt values 9, fAt values 10 with
      | some a3, some a4, some a5, some a6, some a7, some a8, some a9,
          some a10 =>
        let dd := dd.set 3 (PyVal.pq a3)
        let dd := dd.set 4 (PyVal.pq a4)
        let dd := dd.set 5 (PyVal.pq a5)
        let dd := dd.set 6 (PyVal.pq a6)
        let dd := dd.set 7 (PyVal.pq a7)
        let dd := dd.set 8 (PyVal.pq a8)
        let dd := dd.set 9 (PyVal.pq a9)
        let dd := dd.set 10 (PyVal.pq a10)
        { st with device_data := (key, dd) :: st.device_data }
      | _, _, _, _, _, _, _, _ => st
    else
      { st with device_data := (key, dd) :: st.device_data }
  else st

/-- src/custom_components/outback_mate3/__init__.py
`OutbackMate3._process_charge_controller` (lines 369-393); same
copy-then-store discipline as `processInverterB`. -/
def processChargeControllerB (st : StateB) (device_no : ℤ)
    (values : List String) (mac : String) : StateB :=
  let key := mac ++ "_cc_" ++ toString device_no
  let dd := (st.device_data.lookup key).getD (List.replicate 10 (PyVal.pz 0))
  if values.length ≥ 8 then
    if vAt values 0 = "4" then
      let dd := dd.set 7 (PyVal.ps (vAt values 7))
      { st with device_data := (key, dd) :: st.device_data }
    else if vAt values 0 = "5" then
      match fAt values 3, fAt values 4, fAt values 5, fAt values 6 with
      | some a3, some a4, some a5, some a6 =>
        let dd := dd.set 3 (PyVal.pq a3)
        let dd := dd.set 4 (PyVal.pq a4)
        let dd := dd.set 5 (PyVal.pq a5)
        let dd := dd.set 6 (PyVal.pq a6)
        { st with device_data := (key, dd) :: st.device_data }
      | _, _, _, _ => st
    else
      { st with device_data := (key, dd) :: st.device_data }
  else st

/-- The body of the `for device_msg in devices:` loop of
src/custom_components/outback_mate3/__init__.py `_process_data` (lines
223-255): skip empty messages, split on commas dropping empty fields,
require at least 3 fields, parse the type code and device number (a
ValueError is caught and the loop continues), and dispatch on type codes
1/2 (inverter) and 4/5 (charge controller). -/
def processDeviceB (st : StateB) (mac : String) (dmsg : List Char) :
    StateB :=
  if dmsg.isEmpty then st
  else
    let values :=
      ((splitComma dmsg).filter (fun v => !v.isEmpty)).map
        (fun l => String.mk l)
    if values.length < 3 then st
    else
      match pyIntStr (vAt values 0), pyIntStr (vAt values 1) with
      | some device_type, some device_no =>
        if device_type = 1 then processInverterB st device_no values mac
        else if device_type = 2 then processInverterB st device_no values mac
        else if device_type = 4 then
          processChargeControllerB st device_no values mac
        else if device_type = 5 then
          processChargeControllerB st device_no values mac
        else st
      | _, _ => st

/-- src/custom_components/outback_mate3/__init__.py
`OutbackMate3._process_data` (lines 169-261) on the decoded, stripped
message text: reject silently unless the header regex matches; otherwise
extract the MAC, fire the MATE3 discovery step once per new MAC (the
second component lists the discovery events fired), and run the device
loop over the remaining `re.split` segments. -/
def processDataB (st : StateB) (msg : String) : StateB × List String :=
  let m := msg.toList
  if headerMatch m then
    match pySplitDelims m with
    | [] => (st, [])
    | _header :: devices =>
      let mac := extractMac m
      let step :=
        if st.discovered_devices.contains mac then (st, ([] : List String))
        else ({ st with discovered_devices := mac :: st.discovered_devices },
               [mac])
      (devices.foldl (fun s d => processDeviceB s mac d) step.1, step.2)
  else (st, [])

/-- `float(x)` applied to a value read out of a stored device dict
(OutbackSystemSensor.native_value): floats and ints pass through, strings
are parsed; an unparsable string raises ValueError, i.e. `none`. -/
def pvalFloat : PyVal → Option ℚ
  | PyVal.pq q => some q
  | PyVal.pz z => some (z : ℚ)
  | PyVal.ps s => pyFloatStr s

/-- The nested registry shape the system sensors read:
`mac_address -> {device_id -> data}` for inverters and charge controllers
(src/custom_components/outback_mate3/__init__.py lines 106-107). -/
structure Mate3Agg where
  inverters : List (String × List (ℕ × PyDict))
  charge_controllers : List (String × List (ℕ × PyDict))

/-- The generator `float(data.get(field, 0)) for ip in m for data in
m[ip].values()`: one Option term per registered device, `none` marking a
ValueError. -/
def aggTerms (m : List (String × List (ℕ × PyDict))) (field : String) :
    List (Option ℚ) :=
  (m.map (fun p => p.2.map (fun q =>
    pvalFloat ((dlookup field q.2).getD (PyVal.pz 0))))).flatten

/-- Python `sum(...)` over the Option terms: any raising term makes the
whole sum raise (`none`), which native_value's `except` turns into None. -/
def sumQ : List (Option ℚ) → Option ℚ
  | [] => some 0
  | none :: _ => none
  | some a :: rest => (sumQ rest).map (fun b => a + b)

/-- src/custom_components/outback_mate3/sensor.py
`OutbackSystemSensor.native_value` (lines 486-515). -/
def systemNativeValue (agg : Mate3Agg) (sensor_type : String) : Option ℚ :=
  if sensor_type = "total_solar_power" then
    sumQ (aggTerms agg.charge_controllers "pv_power")
  else if sensor_type = "total_grid_power" then
    sumQ (aggTerms agg.inverters "grid_power")
  else if sensor_type = "total_solar_energy" then
    sumQ ((aggTerms agg.charge_controllers "pv_power").map
      (Option.map (fun q => q / 1000)))
  else if sensor_type = "total_grid_energy_import" then
    sumQ ((aggTerms agg.inverters "grid_power").map
      (Option.map (fun q => max 0 q / 1000)))
  else if sensor_type = "total_grid_energy_export" then
    sumQ ((aggTerms agg.inverters "grid_power").map
      (Option.map (fun q => max 0 (-q) / 1000)))
  else none

/-- Stated from the claim's words: the current sum of charge-controller
pv_power divided by 1000. -/
def claimSolarEnergy (agg : Mate3Agg) : Option ℚ :=
  (sumQ (aggTerms agg.charge_controllers "pv_power")).map (fun s => s / 1000)

/-- Stated from the claim's words: the sum of the positive parts of
current inverter grid_power divided by 1000. -/
def claimGridEnergyImport (agg : Mate3Agg) : Option ℚ :=
  (sumQ ((aggTerms agg.inverters "grid_power").map
    (Option.map (fun q => max 0 q)))).map (fun s => s / 1000)

/-- Stated from the claim's words: the sum of the negative parts of
current inverter grid_power, negated, divided by 1000. -/
def claimGridEnergyExport (agg : Mate3Agg) : Option ℚ :=
  (sumQ ((aggTerms agg.inverters "grid_power").map
    (Option.map (fun q => max 0 (-q))))).map (fun s => s / 1000)

/-- A 21-field inverter record for the root-variant decoder, with raw
voltages 120 on both legs and the given misc byte (field 20). -/
def c1vals (misc : String) : List String :=
  ["0", "6", "1", "0", "5", "0", "120", "0", "120", "1", "0", "0", "3",
   "120", "0", "120", "2", "0", "2", "0", misc]

/-- A 21-field inverter record with L1 buy 5, L2 buy 0, L1 sell 0,
L2 sell 3 (fields 4, 11, 5, 12). -/
def c2vals : List String :=
  ["0", "6", "1", "0", "5", "0", "120", "0", "120", "1", "0", "0", "3",
   "120", "0", "120", "2", "0", "2", "0", "128"]

/-- A root-variant state whose charge-controller slot 1 already holds a
reading with pv_current 9. -/
def c3prior : StateA :=
  ⟨[], [], [(1, [("pv_current", PyVal.pz 9)])]⟩

/-- The state after feeding the 11-field charge-controller record to
`c3prior`. -/
def c3after : StateA :=
  (processDeviceA c3prior "0,3,0,2.5,7,30,0,4,0,0,1").1

/-- A 21-field inverter record whose decoded combined output voltage is
240 (raw output-voltage fields 120, doubled by the code), with L1 and L2
inverter currents 1. -/
def c6vals : List String :=
  ["0", "6", "1", "0", "5", "0", "120", "0", "120", "1", "0", "0", "3",
   "120", "0", "120", "2", "0", "2", "0", "128"]

/-- A 12-field charge-controller record used to witness
`c9_charge_controller_decode`. -/
def c9vals : List String :=
  ["0", "3", "0", "2.5", "7", "30", "0", "4", "0", "0", "1", "248"]

/-- A custom-components datagram with one type-2 (inverter power) record
whose field 5 — the grid-current slot — is 7. -/
def c2msgB : String := "[AABBCC-DDEEFF]<2,1,0,1,2,7,3,4,5,6,7,0,0,0,0>"

/-- A registry with one inverter whose grid_power is -2000 W. -/
def c10aggHigh : Mate3Agg :=
  ⟨[("AABBCCDDEEFF", [(1, [("grid_power", PyVal.pq (-2000))])])], []⟩

/-- The same registry after grid power dropped to -1000 W. -/
def c10aggLow : Mate3Agg :=
  ⟨[("AABBCCDDEEFF", [(1, [("grid_power", PyVal.pq (-1000))])])], []⟩

/-- A slot-assignment trace is correctly numbered over the base counters:
each assignment gives one more than the number of records of the same
type code seen so far. -/
def slotsOk (base : ℤ → ℕ) : List (ℤ × ℕ) → Prop
  | [] => True
  | p :: tr =>
    p.2 = base p.1 + 1 ∧
    slotsOk (fun s => if s = p.1 then base s + 1 else base s) tr

/-- A complete 21-field inverter record (type code 6 in field 1). -/
def c5rec : String := "0,6,1,0,5,0,120,0,120,1,0,0,3,120,0,120,2,0,2,0,128"

/-- A 20-field inverter record: the misc-byte access at index 20 raises
IndexError. -/
def c7bad : String := "0,6,1,1,1,1,1,1,1,1,1,1,1,1,1,1,1,1,1,1"

/-- A complete, well-formed 12-field charge-controller record. -/
def c7good : String := "0,3,0,2.5,7,30,0,4,0,0,1,248"

/-- A datagram containing one inverter record and one charge-controller
record — two distinct DeviceKeys. -/
def c8msg : String :=
  "[AABBCC-DDEEFF]<2,1,0,1,1,1,1,1,1,1,1,0,0,0,0><5,1,0,2.5,30,24.8,420,0>"

/-- Stated from the claim's words: a hex digit in the usual sense —
0-9, A-F or a-f. -/
def isHexDigitChar (c : Char) : Bool :=
  c.isDigit || ('A' ≤ c && c ≤ 'F') || ('a' ≤ c && c ≤ 'f')

/-- Stated from the claim's words: the payload begins with a bracketed
header of six hex digits, a hyphen, and six hex digits. -/
def claimHeaderOk : List Char → Bool
  | '[' :: a :: b :: c :: d :: e :: f :: '-' :: g :: h :: i :: j :: k :: l
      :: ']' :: _ =>
    [a, b, c, d, e, f, g, h, i, j, k, l].all isHexDigitChar
  | _ => false

/-- A lowercase-hex header datagram. -/
def c4msgLower : String := "[aabbcc-ddeeff]<5,1,0,2.5,30,24.8,420,0>"

/-- A headerless payload carrying two charge-controller records. -/
def c4payloadNoHeader : String :=
  "<0,3,0,2.5,7,30,0,4,0,0,1,248><0,3,0,2.5,7,30,0,4,0,0,1,248>"

/-- Claim C1: the decoded L1/L2 AC input/output voltages with misc bit 7
set should equal exactly twice the voltages decoded from the same raw
fields with bit 7 clear.  The code (src/__init__.py line 136,
`ac_factor = 2 if is_240v else 2`) multiplies by 2 in both cases: with raw
voltage fields 120, both the misc=128 and the misc=0 decode yield 240 for
all four voltages, so the bit-7-set decode is not twice the bit-7-clear
decode. -/
theorem c1_240v_scale_applied_unconditionally :
    dlookup "l1_ac_input_voltage" (processInverterA (c1vals "128") []).1 =
      some (PyVal.pq 240) ∧
    dlookup "l1_ac_output_voltage" (processInverterA (c1vals "128") []).1 =
      some (PyVal.pq 240) ∧
    dlookup "l2_ac_input_voltage" (processInverterA (c1vals "128") []).1 =
      some (PyVal.pq 240) ∧
    dlookup "l2_ac_output_voltage" (processInverterA (c1vals "128") []).1 =
      some (PyVal.pq 240) ∧
    dlookup "l1_ac_input_voltage" (processInverterA (c1vals "0") []).1 =
      some (PyVal.pq 240) ∧
    dlookup "l1_ac_output_voltage" (processInverterA (c1vals "0") []).1 =
      some (PyVal.pq 240) ∧
    dlookup "l2_ac_input_voltage" (processInverterA (c1vals "0") []).1 =
      some (PyVal.pq 240) ∧
    dlookup "l2_ac_output_voltage" (processInverterA (c1vals "0") []).1 =
      some (PyVal.pq 240) := by
  with_unfolding_all decide

/-- Claim C2 counterexample: on the record with buy currents 5 and 0 and
sell currents 0 and 3, the claim asserts a derived signed grid current of
5; the root-variant decoder stores the four raw buy/sell currents and
derives no grid current at all. -/
theorem c2_no_derived_grid_current :
    dlookup "grid_current" (processInverterA c2vals []).1 = none ∧
    dlookup "l1_buy_current" (processInverterA c2vals []).1 =
      some (PyVal.pq 5) ∧
    dlookup "l2_buy_current" (processInverterA c2vals []).1 =
      some (PyVal.pq 0) ∧
    dlookup "l1_sell_current" (processInverterA c2vals []).1 =
      some (PyVal.pq 0) ∧
    dlookup "l2_sell_current" (processInverterA c2vals []).1 =
      some (PyVal.pq 3) ∧
    ¬ dlookup "grid_current" (processInverterA c2vals []).1 =
      some (PyVal.pq 5) := by
  with_unfolding_all decide

/-- Claim C3 counterexample: feeding the 11-field charge-controller record
`0,3,0,2.5,7,30,0,4,0,0,1` to the root variant raises at the
battery-voltage field (field 11), yet the prior reading for slot 1 is
partially overwritten: pv_current changes from 9 to 7. -/
theorem c3_partial_write_on_short_record :
    (processDeviceA c3prior "0,3,0,2.5,7,30,0,4,0,0,1").2.1 = false ∧
    dlookup "pv_current" ((c3after.charge_controllers.lookup 1).getD []) =
      some (PyVal.pz 7) ∧
    ¬ dlookup "pv_current" ((c3after.charge_controllers.lookup 1).getD []) =
      some (PyVal.pz 9) := by
  with_unfolding_all decide

/-- Claim C6 counterexample: with combined current 1 + 1 = 2 and decoded
output voltages 240 / 240 (average 240), the claim's formula gives
int(2 × 240) = 480, but the code stores int((1 + 1) × 110.0) = 220
(src/__init__.py line 157 multiplies by the constant 110.0). -/
theorem c6_output_power_not_current_times_voltage :
    dlookup "output_power" (processInverterA c6vals []).1 =
      some (PyVal.pz 220) ∧
    dlookup "l1_ac_output_voltage" (processInverterA c6vals []).1 =
      some (PyVal.pq 240) ∧
    dlookup "l2_ac_output_voltage" (processInverterA c6vals []).1 =
      some (PyVal.pq 240) ∧
    dlookup "l1_inverter_current" (processInverterA c6vals []).1 =
      some (PyVal.pq 1) ∧
    dlookup "l2_inverter_current" (processInverterA c6vals []).1 =
      some (PyVal.pq 1) ∧
    pytrunc ((1 + 1) * ((240 + 240) / 2)) = 480 ∧
    ¬ dlookup "output_power" (processInverterA c6vals []).1 =
      some (PyVal.pz (pytrunc ((1 + 1) * ((240 + 240) / 2)))) := by
  with_unfolding_all decide

/-- Claim C9: for every charge-controller record whose numeric fields
parse (an int at offsets 4, 5 and 10, a float at offsets 3, 7 and 11 — in
particular any record with at least 12 numeric fields), the root-variant
decode completes and stores output_current = field3 + field7/10,
battery_voltage = field11/10, pv_current = field4, pv_voltage = field5,
pv_power = pv_voltage × pv_current, and the charge-mode label of field10
under the table {0:silent, 1:float, 2:bulk, 3:absorb, 4:equalize},
everything else mapping to "unknown" (`chargerModeLabel`). -/
theorem c9_charge_controller_decode (values : List String) (cc0 : PyDict)
    (pvc pvv cm : ℤ) (f3 f7 f11 : ℚ)
    (h4 : iAt values 4 = some pvc) (h5 : iAt values 5 = some pvv)
    (h3 : fAt values 3 = some f3) (h7 : fAt values 7 = some f7)
    (h10 : iAt values 10 = some cm) (h11 : fAt values 11 = some f11) :
    (processChargeControllerA values cc0).2 = true ∧
    dlookup "output_current" (processChargeControllerA values cc0).1 =
      some (PyVal.pq (f3 + f7 / 10)) ∧
    dlookup "battery_voltage" (processChargeControllerA values cc0).1 =
      some (PyVal.pq (f11 / 10)) ∧
    dlookup "pv_current" (processChargeControllerA values cc0).1 =
      some (PyVal.pz pvc) ∧
    dlookup "pv_voltage" (processChargeControllerA values cc0).1 =
      some (PyVal.pz pvv) ∧
    dlookup "pv_power" (processChargeControllerA values cc0).1 =
      some (PyVal.pz (pvv * pvc)) ∧
    dlookup "charger_mode" (processChargeControllerA values cc0).1 =
      some (PyVal.ps (chargerModeLabel cm)) ∧
    chargerModeLabel 0 = "silent" ∧ chargerModeLabel 1 = "float" ∧
    chargerModeLabel 2 = "bulk" ∧ chargerModeLabel 3 = "absorb" ∧
    chargerModeLabel 4 = "equalize" ∧ chargerModeLabel 9 = "unknown" := by
  simp [processChargeControllerA, h4, h5, h3, h7, h10, h11, dlookup,
    List.lookup, chargerModeLabel]

/-- Witness for `c9_charge_controller_decode` at the record `c9vals`. -/
theorem c9_charge_controller_decode_witness :
    iAt c9vals 4 = some 7 ∧ fAt c9vals 3 = some (5 / 2) ∧
    (processChargeControllerA c9vals []).2 = true :=
  ⟨by with_unfolding_all decide, by with_unfolding_all decide,
    (c9_charge_controller_decode c9vals [] 7 30 1 (5 / 2) 4 248
      (by with_unfolding_all decide) (by with_unfolding_all decide)
      (by with_unfolding_all decide) (by with_unfolding_all decide)
      (by with_unfolding_all decide) (by with_unfolding_all decide)).1⟩

/-- Claim C6 amended: for every inverter record the root-variant decode
completes on, the stored output_power is int((field2 + field9) × 110.0) —
the combined inverter current times the constant 110.0 — irrespective of
the decoded output voltages. -/
theorem c6_output_power_is_current_times_110 (values : List String)
    (inv0 : PyDict) (misc im am : ℤ)
    (q2 q3 q4 q5 q6 q8 q9 q10 q11 q12 q13 q15 : ℚ)
    (h20 : iAt values 20 = some misc)
    (h2 : fAt values 2 = some q2) (h3 : fAt values 3 = some q3)
    (h4 : fAt values 4 = some q4) (h5 : fAt values 5 = some q5)
    (h6 : fAt values 6 = some q6) (h8 : fAt values 8 = some q8)
    (h9 : fAt values 9 = some q9) (h10 : fAt values 10 = some q10)
    (h11 : fAt values 11 = some q11) (h12 : fAt values 12 = some q12)
    (h13 : fAt values 13 = some q13) (h15 : fAt values 15 = some q15)
    (h16 : iAt values 16 = some im) (h18 : iAt values 18 = some am) :
    (processInverterA values inv0).2 = true ∧
    dlookup "output_power" (processInverterA values inv0).1 =
      some (PyVal.pz (pytrunc ((q2 + q9) * 110))) := by
  simp [processInverterA, h20, h2, h3, h4, h5, h6, h8, h9, h10, h11, h12,
    h13, h15, h16, h18, dlookup, List.lookup]

/-- Witness for `c6_output_power_is_current_times_110` at the record
`c6vals` (currents 1 and 1, so output_power = 220). -/
theorem c6_output_power_is_current_times_110_witness :
    fAt c6vals 2 = some 1 ∧
    dlookup "output_power" (processInverterA c6vals []).1 =
      some (PyVal.pz (pytrunc ((1 + 1) * 110))) :=
  ⟨by with_unfolding_all decide,
    (c6_output_power_is_current_times_110 c6vals [] 128 2 2 1 0 5 0 120 120
      1 0 0 3 120 120
      (by with_unfolding_all decide) (by with_unfolding_all decide)
      (by with_unfolding_all decide) (by with_unfolding_all decide)
      (by with_unfolding_all decide) (by with_unfolding_all decide)
      (by with_unfolding_all decide) (by with_unfolding_all decide)
      (by with_unfolding_all decide) (by with_unfolding_all decide)
      (by with_unfolding_all decide) (by with_unfolding_all decide)
      (by with_unfolding_all decide) (by with_unfolding_all decide)
      (by with_unfolding_all decide)).2⟩

/-- Claim C2 amended: no signed grid current is derived from the buy and
sell currents anywhere.  The root-variant decoder stores the four per-leg
buy/sell currents raw and never writes a grid_current entry (for any
record and any prior reading), and the custom-components variant's
grid_current is read directly from field 5 of a type-2 record (stored at
device_data index 5, which OutbackInverterSensor.native_value reports as
grid_current). -/
theorem c2_grid_current_never_derived :
    (∀ values d0, dlookup "grid_current" (processInverterA values d0).1 =
      dlookup "grid_current" d0) ∧
    (((processDataB StateB.init c2msgB).1.device_data.lookup
        "AABBCCDDEEFF_inverter_1").getD []).get? 5 =
      some (PyVal.pq 7) := by
  constructor
  · intro values d0
    unfold processInverterA
    repeat' split
    all_goals simp_all [dlookup, List.lookup]
  · with_unfolding_all decide

/-- Claim C3 amended: in the custom-components variant a malformed or
short charge-controller record performs no partial field writes — a
record with fewer than 8 fields, or one whose first parsed field is
non-numeric, leaves the state unchanged, and every successful call stores
a single complete binding for the record's own device key (so no other
key's reading is ever touched).  In the root variant the claim fails: the
11-field record of `c3after` partially overwrites the prior slot-1
reading (pv_current becomes 7) before raising at the battery-voltage
field. -/
theorem c3_no_partial_writes_amended :
    (∀ st no values mac, values.length < 8 →
      processChargeControllerB st no values mac = st) ∧
    (∀ st no values mac, vAt values 0 = "5" → fAt values 3 = none →
      processChargeControllerB st no values mac = st) ∧
    (∀ st no values mac, processChargeControllerB st no values mac = st ∨
      ∃ dd, processChargeControllerB st no values mac =
        { st with device_data :=
            (mac ++ "_cc_" ++ toString no, dd) :: st.device_data }) ∧
    dlookup "pv_current" ((c3after.charge_controllers.lookup 1).getD []) =
      some (PyVal.pz 7) := by
  refine ⟨?_, ?_, ?_, ?_⟩
  · intro st no values mac h
    have h8 : ¬ values.length ≥ 8 := by omega
    simp [processChargeControllerB, h8]
  · intro st no values mac h0 h3
    simp [processChargeControllerB, h0, h3]
  · intro st no values mac
    unfold processChargeControllerB
    repeat' split
    all_goals first
      | (left; rfl)
      | (right; exact ⟨_, rfl⟩)
  · with_unfolding_all decide

/-- Witness for `c3_no_partial_writes_amended`: the 3-field record
`5,1,0` is shorter than 8 fields and indeed leaves a fresh state
unchanged, and the record `5,1,0,x,0,0,0,0` has a non-numeric field 3 and
also leaves it unchanged. -/
theorem c3_no_partial_writes_amended_witness :
    (["5", "1", "0"].length < 8 ∧
      processChargeControllerB StateB.init 1 ["5", "1", "0"] "AABBCCDDEEFF" =
        StateB.init) ∧
    (vAt ["5", "1", "0", "x", "0", "0", "0", "0"] 0 = "5" ∧
      processChargeControllerB StateB.init 1
        ["5", "1", "0", "x", "0", "0", "0", "0"] "AABBCCDDEEFF" =
        StateB.init) :=
  ⟨⟨by decide,
    c3_no_partial_writes_amended.1 StateB.init 1 ["5", "1", "0"]
      "AABBCCDDEEFF" (by decide)⟩,
   ⟨by decide,
    c3_no_partial_writes_amended.2.1 StateB.init 1
      ["5", "1", "0", "x", "0", "0", "0", "0"] "AABBCCDDEEFF" (by decide)
      (by with_unfolding_all decide)⟩⟩

/-- Helper for Claim C10: distributing a division over the optional
sum. -/
lemma sumQ_map_div (l : List (Option ℚ)) (c : ℚ) :
    sumQ (l.map (Option.map (fun q => q / c))) =
      (sumQ l).map (fun s => s / c) := by
  induction l with
  | nil => simp [sumQ, zero_div]
  | cons o l ih =>
    cases o with
    | none => simp [sumQ]
    | some a =>
      cases h : sumQ l with
      | none => simp [sumQ, ih, h]
      | some s => simp [sumQ, ih, h, add_div]

/-- Claim C10: the system "energy" sensors are not accumulated over time —
each read recomputes them from the current registry snapshot alone:
total_solar_energy is the sum of charge-controller pv_power divided by
1000, total_grid_energy_import the sum of positive parts of inverter
grid_power divided by 1000, and total_grid_energy_export the sum of
negated negative parts divided by 1000 (each stated from the claim's
words as `claim...` and proved equal to the code's native_value).  Being a
function of the snapshot, a second read of the same state returns the
same value; and the value decreases when power drops, as the -2000 W to
-1000 W example shows (export reading 2.0 then 1.0). -/
theorem c10_energy_not_accumulated :
    (∀ agg, systemNativeValue agg "total_solar_energy" =
      claimSolarEnergy agg) ∧
    (∀ agg, systemNativeValue agg "total_grid_energy_import" =
      claimGridEnergyImport agg) ∧
    (∀ agg, systemNativeValue agg "total_grid_energy_export" =
      claimGridEnergyExport agg) ∧
    systemNativeValue c10aggHigh "total_grid_energy_export" = some 2 ∧
    systemNativeValue c10aggLow "total_grid_energy_export" = some 1 := by
  refine ⟨?_, ?_, ?_, ?_, ?_⟩
  · intro agg
    simp only [systemNativeValue, claimSolarEnergy]
    norm_num
    exact sumQ_map_div _ 1000
  · intro agg
    simp only [systemNativeValue, claimGridEnergyImport]
    norm_num
    rw [← sumQ_map_div]
    simp [List.map_map, Option.map_map, Function.comp_def]
  · intro agg
    simp only [systemNativeValue, claimGridEnergyExport]
    norm_num
    rw [← sumQ_map_div]
    simp [List.map_map, Option.map_map, Function.comp_def]
  · with_unfolding_all decide
  · with_unfolding_all decide

/-- Reading a per-type counter after a cons mirrors the dict update. -/
lemma countsGet_cons (t ty : ℤ) (n : ℕ) (c : List (ℤ × ℕ)) :
    countsGet ((t, n) :: c) ty = if ty = t then n else countsGet c ty := by
  by_cases hty : ty = t
  · simp [countsGet, List.lookup, hty]
  · have hb : (ty == t) = false := beq_eq_false_iff_ne.mpr hty
    simp [countsGet, List.lookup, hb, hty]

/-- `_process_device` either fails before assigning a slot (leaving the
state untouched) or assigns slot `counter + 1` for the record's parsed
type code and pushes the incremented counter. -/
lemma processDeviceA_spec (st : StateA) (d : String) :
    ((processDeviceA st d).2.2 = none ∧ (processDeviceA st d).1 = st) ∨
    (∃ t, (processDeviceA st d).2.2 =
        some (t, countsGet st.device_counts t + 1) ∧
      (processDeviceA st d).1.device_counts =
        (t, countsGet st.device_counts t + 1) :: st.device_counts) := by
  unfold processDeviceA
  cases h : iAt (splitCommaS d) 1 with
  | none => simp [h]
  | some t =>
    right
    simp only [h]
    refine ⟨t, ?_, ?_⟩ <;> (split <;> first | rfl | (split <;> rfl))

/-- The record loop numbers slots correctly over whatever counters it
starts from. -/
lemma processRecordsA_slotsOk (records : List String) :
    ∀ (st : StateA) (base : ℤ → ℕ),
      (∀ t, countsGet st.device_counts t = base t) →
      slotsOk base (processRecordsA records st).2 := by
  induction records with
  | nil =>
    intro st base hb
    simp [processRecordsA, slotsOk]
  | cons d rest ih =>
    intro st base hb
    rcases hpd : processDeviceA st d with ⟨st', ok, a⟩
    have spec := processDeviceA_spec st d
    rw [hpd] at spec
    simp only at spec
    cases ok with
    | false =>
      rcases spec with ⟨ha, hst⟩ | ⟨t, ha, hc⟩
      · simp [processRecordsA, hpd, ha, slotsOk]
      · simp [processRecordsA, hpd, ha, slotsOk, hb t]
    | true =>
      rcases spec with ⟨ha, hst⟩ | ⟨t, ha, hc⟩
      · subst hst
        simp only [processRecordsA, hpd, ha, Option.toList, List.nil_append]
        exact ih _ base hb
      · simp only [processRecordsA, hpd, ha, Option.toList, slotsOk,
          List.cons_append, List.nil_append]
        refine ⟨by rw [hb t], ?_⟩
        apply ih st'
        intro s
        rw [hc, countsGet_cons]
        by_cases hs : s = t <;> simp [hs, hb t, hb s]

/-- Claim C5: within one datagram the root variant assigns slot numbers
per parsed type code as 1, 2, 3, … in order of appearance
(`slotsOk (fun _ => 0)`: every assignment is one more than the number of
earlier records of the same type in the same datagram, because
`_process_data` resets `device_counts` to the empty dict before its
loop); consequently two consecutive datagrams each containing exactly one
inverter record both assign slot 1. -/
theorem c5_slot_numbers_reset_per_datagram :
    (∀ st records, slotsOk (fun _ => 0) (processDataA st records).2) ∧
    (processDataA StateA.init [c5rec]).2 = [(6, 1)] ∧
    (processDataA (processDataA StateA.init [c5rec]).1 [c5rec]).2 =
      [(6, 1)] := by
  refine ⟨?_, ?_, ?_⟩
  · intro st records
    apply processRecordsA_slotsOk
    intro t
    rfl
  · with_unfolding_all decide
  · with_unfolding_all decide

/-- Claim C7 counterexample: in the root variant, a datagram whose first
record is a too-short inverter record loses its remaining records — the
following well-formed charge-controller record is never applied (the
registry stays empty), although processed alone it would be. -/
theorem c7_failure_aborts_datagram :
    (processDataA StateA.init [c7bad, c7good]).1.charge_controllers = [] ∧
    ¬ (processDataA StateA.init [c7good]).1.charge_controllers = [] := by
  with_unfolding_all decide

/-- Claim C7 amended: in the custom-components variant a record that
fails to decode is dropped by itself — the loop continues over the
remaining records from an unchanged state (shown for a record with a
non-numeric type code).  In the root variant, an unknown type code only
skips that record (the counter is still bumped and the rest of the
datagram is processed), but a record whose decode raises aborts the
datagram: the result is exactly the state after the failing call, with no
remaining record applied. -/
theorem c7_record_failure_handling :
    (∀ st mac rest, List.foldl (fun s d => processDeviceB s mac d) st
        ("x,1,2".toList :: rest) =
      List.foldl (fun s d => processDeviceB s mac d) st rest) ∧
    (∀ st d rest st' a, processDeviceA st d = (st', false, a) →
      processRecordsA (d :: rest) st = (st', a.toList)) ∧
    (∀ st rest,
      processRecordsA ("0,9,1" :: rest) st =
        ((processRecordsA rest { st with device_counts :=
            (9, countsGet st.device_counts 9 + 1) :: st.device_counts }).1,
         (9, countsGet st.device_counts 9 + 1) ::
           (processRecordsA rest { st with device_counts :=
             (9, countsGet st.device_counts 9 + 1) ::
               st.device_counts }).2)) := by
  refine ⟨?_, ?_, ?_⟩
  · intro st mac rest
    rfl
  · intro st d rest st' a h
    simp [processRecordsA, h]
  · intro st rest
    rfl

/-- Witness for `c7_record_failure_handling`: the datagram of
`c7_failure_aborts_datagram` ends at the state the failing record left
behind, with the trailing good record unprocessed. -/
theorem c7_record_failure_handling_witness :
    processRecordsA [c7bad, c7good] StateA.init =
      (⟨[(6, 1)], [(1, [])], []⟩, [(6, 1)]) :=
  c7_record_failure_handling.2.1 StateA.init c7bad [c7good]
    ⟨[(6, 1)], [(1, [])], []⟩ (some (6, 1)) (by with_unfolding_all decide)

/-- `_process_inverter` (custom components) never touches the discovery
set. -/
lemma processInverterB_discovered (st : StateB) (no : ℤ)
    (values : List String) (mac : String) :
    (processInverterB st no values mac).discovered_devices =
      st.discovered_devices := by
  unfold processInverterB
  repeat' split
  all_goals rfl

/-- `_process_charge_controller` (custom components) never touches the
discovery set. -/
lemma processChargeControllerB_discovered (st : StateB) (no : ℤ)
    (values : List String) (mac : String) :
    (processChargeControllerB st no values mac).discovered_devices =
      st.discovered_devices := by
  unfold processChargeControllerB
  repeat' split
  all_goals rfl

/-- The device-loop body never touches the discovery set. -/
lemma processDeviceB_discovered (st : StateB) (mac : String)
    (d : List Char) :
    (processDeviceB st mac d).discovered_devices =
      st.discovered_devices := by
  unfold processDeviceB
  dsimp only
  repeat' split
  all_goals first
    | rfl
    | apply processInverterB_discovered
    | apply processChargeControllerB_discovered

/-- The whole device loop never touches the discovery set. -/
lemma foldlDeviceB_discovered (ds : List (List Char)) :
    ∀ (st : StateB) (mac : String),
      StateB.discovered_devices
          (List.foldl (fun s d => processDeviceB s mac d) st ds) =
        st.discovered_devices := by
  induction ds with
  | nil => intro st mac; rfl
  | cons d ds ih =>
    intro st mac
    rw [List.foldl_cons, ih, processDeviceB_discovered]

/-- `re.split` always returns at least one segment. -/
lemma pySplitDelims_ne_nil (l : List Char) : pySplitDelims l ≠ [] := by
  induction l using pySplitDelims.induct <;>
    (simp only [pySplitDelims]; (try split) <;> simp)

/-- On a header match, the discovery events of one datagram are exactly
one event for a new MAC and none for a known MAC. -/
lemma processDataB_events (st : StateB) (msg : String)
    (h : headerMatch msg.toList = true) :
    (processDataB st msg).2 =
      if extractMac msg.toList ∈ st.discovered_devices then []
      else [extractMac msg.toList] := by
  have h2 : headerMatch msg.data = true := h
  cases hs : pySplitDelims msg.data with
  | nil => exact absurd hs (pySplitDelims_ne_nil _)
  | cons hd tl =>
    by_cases hc : extractMac msg.data ∈ st.discovered_devices <;>
      simp [processDataB, h2, hs, hc]

/-- Feeding any datagram a second time fires no discovery event. -/
lemma processDataB_idempotent_events (st : StateB) (msg : String) :
    (processDataB (processDataB st msg).1 msg).2 = [] := by
  by_cases hm : headerMatch msg.toList = true
  · have h1 : extractMac msg.data ∈
        ((processDataB st msg).1).discovered_devices := by
      cases hs : pySplitDelims msg.toList with
      | nil => exact absurd hs (pySplitDelims_ne_nil _)
      | cons hd tl =>
        simp only [processDataB, hm, hs, eq_self_iff_true, if_true]
        rw [foldlDeviceB_discovered]
        by_cases hc : extractMac msg.data ∈ st.discovered_devices
        · simp [hc]
        · simp [hc]
    rw [processDataB_events _ _ hm]
    simp [h1]
  · have h2 : headerMatch msg.data ≠ true := hm
    simp [processDataB, h2]

/-- Claim C8 counterexample: processing `c8msg` from a fresh state stores
readings for two distinct device keys (inverter 1 and charge controller 1
of controller AABBCCDDEEFF) but fires exactly one discovery event — the
per-MAC MATE3 event — not one per DeviceKey as the claim states. -/
theorem c8_one_event_for_two_device_keys :
    (processDataB StateB.init c8msg).2 = ["AABBCCDDEEFF"] ∧
    ((processDataB StateB.init c8msg).1.device_data.lookup
      "AABBCCDDEEFF_inverter_1").isSome = true ∧
    ((processDataB StateB.init c8msg).1.device_data.lookup
      "AABBCCDDEEFF_cc_1").isSome = true := by
  with_unfolding_all decide

/-- Claim C8 amended: the discovery event fires exactly once per
ControllerId (MAC address), not per DeviceKey: a datagram whose header
matches fires one event when its MAC is new and none when it is already
known, and feeding any datagram a second time — including the identical
datagram — fires no event. -/
theorem c8_discovery_once_per_controller :
    (∀ st msg, headerMatch msg.toList = true →
      (processDataB st msg).2 =
        if extractMac msg.toList ∈ st.discovered_devices then []
        else [extractMac msg.toList]) ∧
    (∀ st msg, (processDataB (processDataB st msg).1 msg).2 = []) :=
  ⟨fun st msg h => processDataB_events st msg h,
   fun st msg => processDataB_idempotent_events st msg⟩

/-- Witness for `c8_discovery_once_per_controller` on a fresh state and a
single-record datagram. -/
theorem c8_discovery_once_per_controller_witness :
    headerMatch "[AABBCC-DDEEFF]<5,1,0,2.5,30,24.8,420,0>".toList = true ∧
    (processDataB StateB.init
      "[AABBCC-DDEEFF]<5,1,0,2.5,30,24.8,420,0>").2 = ["AABBCCDDEEFF"] := by
  refine ⟨by decide, ?_⟩
  rw [c8_discovery_once_per_controller.1 StateB.init _ (by decide)]
  with_unfolding_all decide

/-- Claim C4 counterexample: the "accepts iff bracketed hex header" claim
fails on both sides.  The custom-components splitter silently discards a
payload whose header is made of lowercase hex digits (a bracketed
hex-digit header per the claim), and the root-variant splitter performs
no header validation at all: a headerless payload still gets a
charge-controller record decoded and stored. -/
theorem c4_header_acceptance_counterexample :
    claimHeaderOk c4msgLower.toList = true ∧
    processDataB StateB.init c4msgLower = (StateB.init, []) ∧
    claimHeaderOk c4payloadNoHeader.toList = false ∧
    ¬ (processDataAraw StateA.init c4payloadNoHeader).1.charge_controllers =
      [] := by
  with_unfolding_all decide

/-- Claim C4 amended: in the custom-components variant, a payload whose
header does not match the uppercase pattern `[XXXXXX-XXXXXX]`
(`headerMatch`, the embedding of the regex `^\[[0-9A-F]{6}-[0-9A-F]{6}\]`)
is discarded silently with no state change and no event; lowercase hex
digits are rejected; and an accepted header `[AABBCC-DDEEFF]` yields the
ControllerId "AABBCCDDEEFF" — the 12 hex digits with the hyphen removed —
as the discovery event shows.  The root variant performs no header
validation (see the counterexample). -/
theorem c4_header_acceptance_amended :
    (∀ st msg, headerMatch msg.toList = false → processDataB st msg =
      (st, [])) ∧
    headerMatch c4msgLower.toList = false ∧
    headerMatch "[AABBCC-DDEEFF]<5,1,0,2.5,30,24.8,420,0>".toList = true ∧
    (processDataB StateB.init
      "[AABBCC-DDEEFF]<5,1,0,2.5,30,24.8,420,0>").1.discovered_devices =
      ["AABBCCDDEEFF"] := by
  refine ⟨?_, by decide, by decide, ?_⟩
  · intro st msg h
    have h2 : headerMatch msg.data = false := h
    simp [processDataB, h2]
  · with_unfolding_all decide

/-- Witness for `c4_header_acceptance_amended`: a payload with no header
is rejected with no state change. -/
theorem c4_header_acceptance_amended_witness :
    headerMatch "hello".toList = false ∧
    processDataB StateB.init "hello" = (StateB.init, []) :=
  ⟨by decide, c4_header_acceptance_amended.1 StateB.init "hello" (by decide)⟩
